import Mathlib

/-!
Formal model of `chatgpt_text_tools.py`.

The script is a thin command-line wrapper around a remote completion API:
a `ChatGPTHelper` class with operations `check_grammar`, `generate_tldr`
and `list_models`, a static `log_to_file` helper, and a `main` entry point
that dispatches on the task name.

Modelling conventions:
* The remote API is an explicit oracle argument.  A chat oracle has type
  `ChatApi`; it receives exactly the model identifier and message list that
  `openai.ChatCompletion.create` is called with, and returns either a
  `Completion` or the string rendering of a raised exception.  The model
  catalog oracle is a single `Except String ModelsPage` value, the outcome
  of the one `openai.Model.list()` call.
* The log file is modelled at two levels.  `log_to_file` acts on the file
  contents as a `String` (append of one timestamped record).  The
  operations record the list of messages they pass to `log_to_file`, in
  order, in a `logged : List String` field; each element stands for one
  `log_to_file` call on the operation's log file.
* `datetime.datetime.now()` is an explicit clock argument `Nat → Timestamp`
  giving the value observed by the n-th logging call of the operation.
* Strings are Lean strings; Python `str.strip()` is modelled by `pyStrip`
  (drop whitespace characters from both ends) and `str.lower()` by
  `strLower` (character-wise ASCII lowering).
* `sys.exit(n)` and falling off the end of `main` are modelled by the
  `exitCode` field of `MainRun`; `print` calls are collected in `stdout`.
-/

/-- The local-time fields used by `strftime("%Y-%m-%d %H:%M:%S")` in
`log_to_file`. -/
structure Timestamp where
  year : Nat
  month : Nat
  day : Nat
  hour : Nat
  minute : Nat
  second : Nat

/-- `strftime` zero-pads `%m`, `%d`, `%H`, `%M`, `%S` to two digits. -/
def pad2 (n : Nat) : String :=
  if n < 10 then "0" ++ Nat.repr n else Nat.repr n

/-- Model of `datetime.datetime.now().strftime("%Y-%m-%d %H:%M:%S")`.
`%Y` prints the year as a plain decimal number (four digits for the years
1000–9999). -/
def formatTimestamp (t : Timestamp) : String :=
  Nat.repr t.year ++ "-" ++ pad2 t.month ++ "-" ++ pad2 t.day ++ " " ++
    pad2 t.hour ++ ":" ++ pad2 t.minute ++ ":" ++ pad2 t.second

/-- Model of `ChatGPTHelper.log_to_file(filename, message, verbose)`.
The file is represented by its current contents (first argument of the
pair is the new contents): the call opens the file in append mode and
writes the single record `f"{timestamp} - {message}\n"`.  The second
component is the list of lines printed to stdout (one echo line when
`verbose` is true). -/
def log_to_file (ts : Timestamp) (file : String) (message : String)
    (verbose : Bool) : String × List String :=
  (file ++ (formatTimestamp ts ++ " - " ++ message ++ "\n"),
   if verbose then ["Log: " ++ formatTimestamp ts ++ " - " ++ message] else [])

/-- The stdout echo emitted by `log_to_file` when `verbose` is true. -/
def echoLine (ts : Timestamp) (message : String) : String :=
  "Log: " ++ formatTimestamp ts ++ " - " ++ message

/-- One `{"role": ..., "content": ...}` entry of the `messages` argument of
`openai.ChatCompletion.create`. -/
structure ChatMessage where
  role : String
  content : String

/-- The `message` field of a completion choice (`choice.message.content`). -/
structure ChoiceMessage where
  content : String

/-- One element of `completion.choices`. -/
structure Choice where
  message : ChoiceMessage

/-- The value returned by `openai.ChatCompletion.create`. -/
structure Completion where
  choices : List Choice

/-- One record of `openai.Model.list()['data']`; `model['id']` is its
identifier. -/
structure ModelRecord where
  id : String

/-- The value returned by `openai.Model.list()`: `models['data']`. -/
structure ModelsPage where
  data : List ModelRecord

/-- A chat-completion oracle: given the model identifier and the message
list of one `openai.ChatCompletion.create` call, the network either
returns a completion or raises (the error rendered as a string). -/
def ChatApi : Type :=
  String → List ChatMessage → Except String Completion

/-- Constant `MODEL_CHECK_GRAMMAR` of the script. -/
def MODEL_CHECK_GRAMMAR : String := "gpt-4o-2024-08-06"

/-- Constant `MODEL_TLDR` of the script. -/
def MODEL_TLDR : String := "gpt-4o-2024-08-06"

/-- Python `str.strip()`: remove whitespace characters from both ends.
(The Unicode whitespace classes of Python and Lean differ outside ASCII;
only ASCII whitespace occurs in this development.) -/
def pyStrip (s : String) : String :=
  ⟨((s.data.dropWhile Char.isWhitespace).reverse.dropWhile
      Char.isWhitespace).reverse⟩

/-- Python `str.lower()`, character-wise (ASCII range). -/
def strLower (s : String) : String :=
  ⟨s.data.map Char.toLower⟩

/-- Python truthiness of an optional string: `None` and `""` are falsy. -/
def truthyStr : Option String → Bool
  | none => false
  | some s => !(s == "")

/-- Model of `ChatGPTHelper.__init__(api_key)`: raises `ValueError` when
the key is falsy (absent or empty); otherwise assigns the module-global
`openai.api_key`, here returned as the success value (the credential
stored for subsequent calls).  No network call is involved. -/
def chatGPTHelperInit (api_key : Option String) : Except String String :=
  match api_key with
  | none => Except.error "OPENAI_API_KEY environment variable not set."
  | some k =>
      if k = "" then
        Except.error "OPENAI_API_KEY environment variable not set."
      else
        Except.ok k

/-- The prompt built by `check_grammar`. -/
def grammarPrompt (text : String) : String :=
  "Check grammar, only output the text, no explanations or comments: " ++ text

/-- The prompt built by `generate_tldr`. -/
def tldrPrompt (text : String) : String :=
  "Provide a TLDR for the following email. Do not use 3rd person, just a 1st person TLDR: " ++ text

/-- Outcome of one `check_grammar` or `generate_tldr` call: the stdout
lines printed, the messages appended to the log file (one element per
`log_to_file` call, in order), and the returned value or re-raised
error. -/
structure OpRun where
  stdout : List String
  logged : List String
  result : Except String String

/-- Model of `ChatGPTHelper.check_grammar(text, log_file, verbose)`.
It logs the received text, performs a single
`openai.ChatCompletion.create` call with `MODEL_CHECK_GRAMMAR` and the
grammar prompt, strips the first choice's content, logs and returns it;
any exception in the `try` block (a raised network error, or the
`IndexError` from `choices[0]` on an empty choice list) is logged as
`Error: ...` and re-raised. -/
def check_grammar (clock : Nat → Timestamp) (create : ChatApi)
    (text : String) (verbose : Bool) : OpRun :=
  let recvMsg := "Received text: " ++ text
  let out0 := if verbose then [echoLine (clock 0) recvMsg] else []
  match create MODEL_CHECK_GRAMMAR [⟨"user", grammarPrompt text⟩] with
  | Except.error e =>
      let errMsg := "Error: " ++ e
      ⟨out0 ++ (if verbose then [echoLine (clock 1) errMsg] else []),
       [recvMsg, errMsg], Except.error e⟩
  | Except.ok completion =>
      match completion.choices with
      | [] =>
          let e := "list index out of range"
          let errMsg := "Error: " ++ e
          ⟨out0 ++ (if verbose then [echoLine (clock 1) errMsg] else []),
           [recvMsg, errMsg], Except.error e⟩
      | choice :: _ =>
          let corrected_text := pyStrip choice.message.content
          let okMsg := "Corrected text: " ++ corrected_text
          ⟨out0 ++ (if verbose then [echoLine (clock 1) okMsg] else []),
           [recvMsg, okMsg], Except.ok corrected_text⟩

/-- Model of `ChatGPTHelper.generate_tldr(text, log_file, verbose)`; same
shape as `check_grammar` with the TLDR prompt, `MODEL_TLDR`, and the
`TLDR:` log message. -/
def generate_tldr (clock : Nat → Timestamp) (create : ChatApi)
    (text : String) (verbose : Bool) : OpRun :=
  let recvMsg := "Received text: " ++ text
  let out0 := if verbose then [echoLine (clock 0) recvMsg] else []
  match create MODEL_TLDR [⟨"user", tldrPrompt text⟩] with
  | Except.error e =>
      let errMsg := "Error: " ++ e
      ⟨out0 ++ (if verbose then [echoLine (clock 1) errMsg] else []),
       [recvMsg, errMsg], Except.error e⟩
  | Except.ok completion =>
      match completion.choices with
      | [] =>
          let e := "list index out of range"
          let errMsg := "Error: " ++ e
          ⟨out0 ++ (if verbose then [echoLine (clock 1) errMsg] else []),
           [recvMsg, errMsg], Except.error e⟩
      | choice :: _ =>
          let tldr := pyStrip choice.message.content
          let okMsg := "TLDR: " ++ tldr
          ⟨out0 ++ (if verbose then [echoLine (clock 1) okMsg] else []),
           [recvMsg, okMsg], Except.ok tldr⟩

/-- Outcome of one `list_models` call: stdout lines and the returned list
of identifiers or re-raised error.  Note the source writes nothing to the
log file in this operation. -/
structure ListRun where
  stdout : List String
  result : Except String (List String)

/-- Model of `ChatGPTHelper.list_models(verbose)`: one `openai.Model.list()`
call, extraction of `model['id']` for each record of `models['data']` in
order, optional printing, and the list returned; on failure an optional
stdout message and the error re-raised. -/
def list_models (modelsApi : Except String ModelsPage) (verbose : Bool) :
    ListRun :=
  match modelsApi with
  | Except.error e =>
      ⟨if verbose then ["Error fetching models: " ++ e] else [],
       Except.error e⟩
  | Except.ok models =>
      let model_names := models.data.map (fun m => m.id)
      ⟨if verbose then
          "Available models:" :: model_names.map (fun n => "- " ++ n)
        else [], Except.ok model_names⟩

/-- Python `repr` of a list of plain strings as printed by
`print(result)` for the `list_models` task (no escaping is modelled; the
strings involved contain no quotes or control characters). -/
def pyReprStrList (l : List String) : String :=
  "[" ++ String.intercalate ", " (l.map (fun s => "\x27" ++ s ++ "\x27")) ++ "]"

/-- Outcome of a `main` invocation: lines printed to stdout, messages
appended to the log file, and the process exit code. -/
structure MainRun where
  stdout : List String
  logged : List String
  exitCode : Nat

/-- Model of `main()`.  `argv` is `sys.argv` (program name first),
`keyringKey` the result of
`keyring.get_password("OPENAI_API_KEY", "ChatGPT Integration")`, and the
oracles as above.  `sys.exit(1)` raises `SystemExit`, which the
`except Exception` clause does not catch, so it terminates the process
with code 1 from anywhere in `main`. -/
def mainRun (argv : List String) (keyringKey : Option String)
    (clock : Nat → Timestamp) (create : ChatApi)
    (modelsApi : Except String ModelsPage) : MainRun :=
  if argv.length < 2 then
    ⟨["Usage: python chatgpt_text_tools.py <task> [<text>]"], [], 1⟩
  else
    let task := strLower ((argv[1]?).getD "")
    let text : Option String := argv[2]?
    if !truthyStr keyringKey then
      ⟨["API key not found in Keychain. Please add it first.",
        "Use Keychain Access to add the key with:",
        " - Service name: OPENAI_API_KEY",
        " - Account name: ChatGPT Integration"], [], 1⟩
    else
      match chatGPTHelperInit keyringKey with
      | Except.error e => ⟨["Error: " ++ e], [], 1⟩
      | Except.ok _ =>
          if task = "grammar" then
            if !truthyStr text then
              ⟨["Error: Text is required for the \x27grammar\x27 task."], [], 1⟩
            else
              let r := check_grammar clock create (text.getD "") true
              match r.result with
              | Except.ok res =>
                  ⟨r.stdout ++ (if res = "" then [] else [res]), r.logged, 0⟩
              | Except.error e =>
                  ⟨r.stdout ++ ["Error: " ++ e], r.logged, 1⟩
          else if task = "tldr" then
            if !truthyStr text then
              ⟨["Error: Text is required for the \x27tldr\x27 task."], [], 1⟩
            else
              let r := generate_tldr clock create (text.getD "") true
              match r.result with
              | Except.ok res =>
                  ⟨r.stdout ++ (if res = "" then [] else [res]), r.logged, 0⟩
              | Except.error e =>
                  ⟨r.stdout ++ ["Error: " ++ e], r.logged, 1⟩
          else if task = "list_models" ∨ task = "lm" then
            let r := list_models modelsApi true
            match r.result with
            | Except.ok names =>
                ⟨r.stdout ++ (if names = [] then [] else [pyReprStrList names]),
                 [], 0⟩
            | Except.error e =>
                ⟨r.stdout ++ ["Error: " ++ e], [], 1⟩
          else
            ⟨["Invalid task. Use \x27grammar\x27, \x27tldr\x27, or \x27list_models\x27/\x27lm\x27."],
             [], 1⟩

/-- A fixed clock for concrete runs: every logging call observes
2024-01-02 03:04:05. -/
def testClock : Nat → Timestamp :=
  fun _ => ⟨2024, 1, 2, 3, 4, 5⟩

/-- A chat oracle for runs that must not perform a chat call. -/
def noChat : ChatApi :=
  fun _ _ => Except.error "unreachable"

/-- A chat oracle that always succeeds with one choice whose content is
padded by surrounding whitespace. -/
def stubOkApi : ChatApi :=
  fun _ _ => Except.ok ⟨[⟨⟨" Fixed. "⟩⟩]⟩

/-- A chat oracle that always raises with description `boom`. -/
def stubErrApi : ChatApi :=
  fun _ _ => Except.error "boom"

/-- The stub completion service of the grammar scenario: the first
choice's message content is `She doesn\x27t like it.`. -/
def stubGrammarApi : ChatApi :=
  fun _ _ => Except.ok ⟨[⟨⟨"She doesn\x27t like it."⟩⟩]⟩

/-- A chat oracle whose completion content strips to the empty string. -/
def blankApi : ChatApi :=
  fun _ _ => Except.ok ⟨[⟨⟨"  "⟩⟩]⟩

/-- C1: for every non-empty input text, on a successful completion call
(the oracle returns a completion and `choices[0]` exists), `check_grammar`
and `generate_tldr` each append exactly two log entries: the first
containing the original input text, the second containing the model
output with surrounding whitespace stripped; the stripped output is also
the returned value. -/
theorem c1_success_two_log_entries
    (clock : Nat → Timestamp) (create : ChatApi) (text : String)
    (verbose : Bool) (compg compt : Completion) (cg ct : Choice)
    (csg cst : List Choice)
    (hne : text ≠ "")
    (hg : create MODEL_CHECK_GRAMMAR [⟨"user", grammarPrompt text⟩] =
        Except.ok compg)
    (hgc : compg.choices = cg :: csg)
    (ht : create MODEL_TLDR [⟨"user", tldrPrompt text⟩] = Except.ok compt)
    (htc : compt.choices = ct :: cst) :
    (check_grammar clock create text verbose).logged =
        ["Received text: " ++ text,
         "Corrected text: " ++ pyStrip cg.message.content] ∧
    (check_grammar clock create text verbose).result =
        Except.ok (pyStrip cg.message.content) ∧
    (generate_tldr clock create text verbose).logged =
        ["Received text: " ++ text,
         "TLDR: " ++ pyStrip ct.message.content] ∧
    (generate_tldr clock create text verbose).result =
        Except.ok (pyStrip ct.message.content) ∧
    (∃ p q, "Received text: " ++ text = p ++ text ++ q) ∧
    (∃ p q, "Corrected text: " ++ pyStrip cg.message.content =
        p ++ pyStrip cg.message.content ++ q) ∧
    (∃ p q, "TLDR: " ++ pyStrip ct.message.content =
        p ++ pyStrip ct.message.content ++ q) := by
  refine ⟨?_, ?_, ?_, ?_,
    ⟨"Received text: ", "", by simp⟩,
    ⟨"Corrected text: ", "", by simp⟩,
    ⟨"TLDR: ", "", by simp⟩⟩ <;>
  simp [check_grammar, generate_tldr, hg, hgc, ht, htc]

/-- Witness for C1 at a concrete oracle, text and clock. -/
theorem c1_success_two_log_entries_witness :
    ("She dont like it" ≠ "") ∧
    (check_grammar testClock stubOkApi "She dont like it" true).logged =
        ["Received text: She dont like it", "Corrected text: Fixed."] ∧
    (check_grammar testClock stubOkApi "She dont like it" true).result =
        Except.ok "Fixed." := by
  have h := c1_success_two_log_entries testClock stubOkApi "She dont like it"
    true ⟨[⟨⟨" Fixed. "⟩⟩]⟩ ⟨[⟨⟨" Fixed. "⟩⟩]⟩ ⟨⟨" Fixed. "⟩⟩ ⟨⟨" Fixed. "⟩⟩
    [] [] (by decide) rfl rfl rfl rfl
  exact ⟨by decide, h.1, h.2.1⟩

/-- C2: for every failure raised by the underlying completion call, each
operation appends exactly one additional log entry (beyond the received
entry) containing the error description, and re-raises the same error
rather than returning a value; the operation performs a single completion
call, so its whole behaviour depends only on that one response (no
retry). -/
theorem c2_failure_one_error_entry
    (clock : Nat → Timestamp) (create : ChatApi) (text : String)
    (verbose : Bool) (eg et : String)
    (hg : create MODEL_CHECK_GRAMMAR [⟨"user", grammarPrompt text⟩] =
        Except.error eg)
    (ht : create MODEL_TLDR [⟨"user", tldrPrompt text⟩] = Except.error et) :
    (check_grammar clock create text verbose).logged =
        ["Received text: " ++ text, "Error: " ++ eg] ∧
    (check_grammar clock create text verbose).result = Except.error eg ∧
    (generate_tldr clock create text verbose).logged =
        ["Received text: " ++ text, "Error: " ++ et] ∧
    (generate_tldr clock create text verbose).result = Except.error et ∧
    (∃ p q, "Error: " ++ eg = p ++ eg ++ q) ∧
    (∃ p q, "Error: " ++ et = p ++ et ++ q) ∧
    (∀ create' : ChatApi,
        create' MODEL_CHECK_GRAMMAR [⟨"user", grammarPrompt text⟩] =
          create MODEL_CHECK_GRAMMAR [⟨"user", grammarPrompt text⟩] →
        check_grammar clock create' text verbose =
          check_grammar clock create text verbose) ∧
    (∀ create' : ChatApi,
        create' MODEL_TLDR [⟨"user", tldrPrompt text⟩] =
          create MODEL_TLDR [⟨"user", tldrPrompt text⟩] →
        generate_tldr clock create' text verbose =
          generate_tldr clock create text verbose) := by
  refine ⟨by simp [check_grammar, hg], by simp [check_grammar, hg],
    by simp [generate_tldr, ht], by simp [generate_tldr, ht],
    ⟨"Error: ", "", by simp⟩, ⟨"Error: ", "", by simp⟩,
    fun create' h => by simp [check_grammar, h],
    fun create' h => by simp [generate_tldr, h]⟩

/-- Witness for C2 at a concrete failing oracle. -/
theorem c2_failure_one_error_entry_witness :
    (check_grammar testClock stubErrApi "hi" false).logged =
        ["Received text: hi", "Error: boom"] ∧
    (check_grammar testClock stubErrApi "hi" false).result =
        Except.error "boom" := by
  have h := c2_failure_one_error_entry testClock stubErrApi "hi" false
    "boom" "boom" rfl rfl
  exact ⟨h.1, h.2.1⟩

/-- C4: `list_models` returns the model identifiers in exactly the order
received from the API, with no duplicates introduced and no entries
dropped (the result is precisely the id of each catalog record, in
order); the stub catalog of two models yields exactly those two
identifiers; and the task alias `lm` reaches `list_models` from `main`
and prints them in order. -/
theorem c4_list_models_order :
    (∀ (data : List ModelRecord) (verbose : Bool),
        (list_models (Except.ok ⟨data⟩) verbose).result =
          Except.ok (data.map (fun m => m.id))) ∧
    (list_models (Except.ok ⟨[⟨"gpt-a"⟩, ⟨"gpt-b"⟩]⟩) true).result =
        Except.ok ["gpt-a", "gpt-b"] ∧
    (mainRun ["prog", "lm"] (some "key") testClock noChat
        (Except.ok ⟨[⟨"gpt-a"⟩, ⟨"gpt-b"⟩]⟩)).stdout =
      ["Available models:", "- gpt-a", "- gpt-b",
       pyReprStrList ["gpt-a", "gpt-b"]] ∧
    (mainRun ["prog", "lm"] (some "key") testClock noChat
        (Except.ok ⟨[⟨"gpt-a"⟩, ⟨"gpt-b"⟩]⟩)).exitCode = 0 :=
  ⟨fun _ _ => rfl, rfl, by decide, by decide⟩

/-- C8: client initialization with an empty or absent credential raises a
configuration error before any call; with a non-empty credential it
succeeds and stores the credential. -/
theorem c8_init_credential_check :
    chatGPTHelperInit none =
        Except.error "OPENAI_API_KEY environment variable not set." ∧
    chatGPTHelperInit (some "") =
        Except.error "OPENAI_API_KEY environment variable not set." ∧
    (∀ k : String, k ≠ "" → chatGPTHelperInit (some k) = Except.ok k) := by
  refine ⟨rfl, rfl, fun k hk => ?_⟩
  simp [chatGPTHelperInit, hk]

/-- Witness for C8 at a concrete non-empty credential. -/
theorem c8_init_credential_check_witness :
    chatGPTHelperInit (some "sk-test") = Except.ok "sk-test" :=
  c8_init_credential_check.2.2 "sk-test" (by decide)

/-- C3 counterexample: a successful `list_models` invocation through
`main` (task `lm`) appends no log entry at all — the source's
`list_models` never calls `log_to_file` — refuting the claim that every
operation appends at least one log entry. -/
theorem c3_cex_list_models_logs_nothing :
    (mainRun ["prog", "lm"] (some "k") testClock noChat
        (Except.ok ⟨[⟨"gpt-a"⟩]⟩)).logged = [] ∧
    ¬ 1 ≤ (mainRun ["prog", "lm"] (some "k") testClock noChat
        (Except.ok ⟨[⟨"gpt-a"⟩]⟩)).logged.length ∧
    (mainRun ["prog", "lm"] (some "k") testClock noChat
        (Except.ok ⟨[⟨"gpt-a"⟩]⟩)).exitCode = 0 ∧
    (mainRun ["prog", "lm"] (some "k") testClock noChat
        (Except.ok ⟨[⟨"gpt-a"⟩]⟩)).stdout =
      ["Available models:", "- gpt-a", pyReprStrList ["gpt-a"]] := by
  refine ⟨by decide, by decide, by decide, by decide⟩

/-- C3 amended: `check_grammar` and `generate_tldr`, whether they succeed
or fail, append at least one log entry (the received entry first); on
success a second entry records the result, and on failure an error entry
is recorded in place of the result entry.  `list_models` (tasks `lm` and
`list_models`) appends no log entry. -/
theorem c3_amended_logging_invariant (clock : Nat → Timestamp)
    (create : ChatApi) (text : String) (verbose : Bool) (p : String)
    (key : Option String) (modelsApi : Except String ModelsPage) :
    (∃ tail, (check_grammar clock create text verbose).logged =
        ("Received text: " ++ text) :: tail) ∧
    ((∃ r, (check_grammar clock create text verbose).result = Except.ok r ∧
        (check_grammar clock create text verbose).logged =
          ["Received text: " ++ text, "Corrected text: " ++ r]) ∨
     (∃ e, (check_grammar clock create text verbose).result =
          Except.error e ∧
        (check_grammar clock create text verbose).logged =
          ["Received text: " ++ text, "Error: " ++ e])) ∧
    (∃ tail, (generate_tldr clock create text verbose).logged =
        ("Received text: " ++ text) :: tail) ∧
    ((∃ r, (generate_tldr clock create text verbose).result = Except.ok r ∧
        (generate_tldr clock create text verbose).logged =
          ["Received text: " ++ text, "TLDR: " ++ r]) ∨
     (∃ e, (generate_tldr clock create text verbose).result =
          Except.error e ∧
        (generate_tldr clock create text verbose).logged =
          ["Received text: " ++ text, "Error: " ++ e])) ∧
    (mainRun [p, "lm"] key clock create modelsApi).logged = [] ∧
    (mainRun [p, "list_models"] key clock create modelsApi).logged = [] := by
  refine ⟨?_, ?_, ?_, ?_, ?_, ?_⟩
  · rcases hapi : create MODEL_CHECK_GRAMMAR [⟨"user", grammarPrompt text⟩]
      with e | comp
    · exact ⟨["Error: " ++ e], by simp [check_grammar, hapi]⟩
    · rcases hc : comp.choices with _ | ⟨c, cs⟩
      · exact ⟨["Error: list index out of range"],
          by simp [check_grammar, hapi, hc]⟩
      · exact ⟨["Corrected text: " ++ pyStrip c.message.content],
          by simp [check_grammar, hapi, hc]⟩
  · rcases hapi : create MODEL_CHECK_GRAMMAR [⟨"user", grammarPrompt text⟩]
      with e | comp
    · exact Or.inr ⟨e, by simp [check_grammar, hapi]⟩
    · rcases hc : comp.choices with _ | ⟨c, cs⟩
      · exact Or.inr ⟨"list index out of range",
          by simp [check_grammar, hapi, hc]⟩
      · exact Or.inl ⟨pyStrip c.message.content,
          by simp [check_grammar, hapi, hc]⟩
  · rcases hapi : create MODEL_TLDR [⟨"user", tldrPrompt text⟩]
      with e | comp
    · exact ⟨["Error: " ++ e], by simp [generate_tldr, hapi]⟩
    · rcases hc : comp.choices with _ | ⟨c, cs⟩
      · exact ⟨["Error: list index out of range"],
          by simp [generate_tldr, hapi, hc]⟩
      · exact ⟨["TLDR: " ++ pyStrip c.message.content],
          by simp [generate_tldr, hapi, hc]⟩
  · rcases hapi : create MODEL_TLDR [⟨"user", tldrPrompt text⟩]
      with e | comp
    · exact Or.inr ⟨e, by simp [generate_tldr, hapi]⟩
    · rcases hc : comp.choices with _ | ⟨c, cs⟩
      · exact Or.inr ⟨"list index out of range",
          by simp [generate_tldr, hapi, hc]⟩
      · exact Or.inl ⟨pyStrip c.message.content,
          by simp [generate_tldr, hapi, hc]⟩
  · cases key with
    | none => rfl
    | some s =>
        by_cases hs : s = ""
        · subst hs; rfl
        · have h1 : (!truthyStr (some s)) = false := by simp [truthyStr, hs]
          have h2 : chatGPTHelperInit (some s) = Except.ok s := by
            simp [chatGPTHelperInit, hs]
          unfold mainRun
          rw [if_neg (by simp), h1, if_neg (by simp), h2]
          have htask : strLower (([p, "lm"][1]?).getD "") = "lm" := rfl
          rw [htask, if_neg (by decide : ¬ ("lm" : String) = "grammar"),
            if_neg (by decide : ¬ ("lm" : String) = "tldr"),
            if_pos (by decide : ("lm" : String) = "list_models" ∨
              ("lm" : String) = "lm")]
          cases modelsApi <;> rfl
  · cases key with
    | none => rfl
    | some s =>
        by_cases hs : s = ""
        · subst hs; rfl
        · have h1 : (!truthyStr (some s)) = false := by simp [truthyStr, hs]
          have h2 : chatGPTHelperInit (some s) = Except.ok s := by
            simp [chatGPTHelperInit, hs]
          unfold mainRun
          rw [if_neg (by simp), h1, if_neg (by simp), h2]
          have htask : strLower (([p, "list_models"][1]?).getD "") =
              "list_models" := rfl
          rw [htask,
            if_neg (by decide : ¬ ("list_models" : String) = "grammar"),
            if_neg (by decide : ¬ ("list_models" : String) = "tldr"),
            if_pos (by decide : ("list_models" : String) = "list_models" ∨
              ("list_models" : String) = "lm")]
          cases modelsApi <;> rfl

/-- C5 counterexample: in the grammar scenario the program's stdout is
not exactly the corrected sentence — `main` runs `check_grammar` with
`verbose=True`, so two log-echo lines are printed before the result. -/
theorem c5_cex_output_not_exact :
    (mainRun ["prog", "grammar", "She dont like it"] (some "key") testClock
        stubGrammarApi (Except.error "unused")).stdout ≠
      ["She doesn\x27t like it."] ∧
    (mainRun ["prog", "grammar", "She dont like it"] (some "key") testClock
        stubGrammarApi (Except.error "unused")).stdout =
      ["Log: 2024-01-02 03:04:05 - Received text: She dont like it",
       "Log: 2024-01-02 03:04:05 - Corrected text: She doesn\x27t like it.",
       "She doesn\x27t like it."] := by
  refine ⟨by decide, by decide⟩

/-- C5 amended: the grammar scenario against the stub completion service
exits with code 0 and prints exactly `She doesn\x27t like it.` as its final
stdout line; since `main` enables verbose logging, the two log-echo lines
precede that result line. -/
theorem c5_amended_grammar_scenario :
    (mainRun ["prog", "grammar", "She dont like it"] (some "key") testClock
        stubGrammarApi (Except.error "unused")).stdout =
      ["Log: 2024-01-02 03:04:05 - Received text: She dont like it",
       "Log: 2024-01-02 03:04:05 - Corrected text: She doesn\x27t like it.",
       "She doesn\x27t like it."] ∧
    (mainRun ["prog", "grammar", "She dont like it"] (some "key") testClock
        stubGrammarApi (Except.error "unused")).stdout.getLast? =
      some "She doesn\x27t like it." ∧
    (mainRun ["prog", "grammar", "She dont like it"] (some "key") testClock
        stubGrammarApi (Except.error "unused")).exitCode = 0 := by
  refine ⟨by decide, by decide, by decide⟩

/-- C6: with task `grammar` and an absent or empty text argument, the
program exits with code 1, writes no log entry, and performs no network
call (the outcome is the same for every chat and catalog oracle and every
clock). -/
theorem c6_grammar_missing_text (p : String) (key : Option String)
    (clock clock' : Nat → Timestamp) (create create' : ChatApi)
    (mApi mApi' : Except String ModelsPage) :
    (mainRun [p, "grammar"] key clock create mApi).exitCode = 1 ∧
    (mainRun [p, "grammar"] key clock create mApi).logged = [] ∧
    (mainRun [p, "grammar", ""] key clock create mApi).exitCode = 1 ∧
    (mainRun [p, "grammar", ""] key clock create mApi).logged = [] ∧
    mainRun [p, "grammar"] key clock create mApi =
      mainRun [p, "grammar"] key clock' create' mApi' ∧
    mainRun [p, "grammar", ""] key clock create mApi =
      mainRun [p, "grammar", ""] key clock' create' mApi' := by
  cases key with
  | none => exact ⟨rfl, rfl, rfl, rfl, rfl, rfl⟩
  | some s =>
      by_cases hs : s = ""
      · subst hs; exact ⟨rfl, rfl, rfl, rfl, rfl, rfl⟩
      · have h1 : (!truthyStr (some s)) = false := by simp [truthyStr, hs]
        have h2 : chatGPTHelperInit (some s) = Except.ok s := by
          simp [chatGPTHelperInit, hs]
        have h3 : ∀ (c : Nat → Timestamp) (cr : ChatApi)
            (m : Except String ModelsPage),
            mainRun [p, "grammar"] (some s) c cr m =
              ⟨["Error: Text is required for the \x27grammar\x27 task."],
               [], 1⟩ := by
          intro c cr m
          unfold mainRun
          rw [if_neg (by simp), h1, if_neg (by simp), h2]
          have htask : strLower (([p, "grammar"][1]?).getD "") =
              "grammar" := rfl
          rw [htask, if_pos (rfl : ("grammar" : String) = "grammar")]
          rfl
        have h4 : ∀ (c : Nat → Timestamp) (cr : ChatApi)
            (m : Except String ModelsPage),
            mainRun [p, "grammar", ""] (some s) c cr m =
              ⟨["Error: Text is required for the \x27grammar\x27 task."],
               [], 1⟩ := by
          intro c cr m
          unfold mainRun
          rw [if_neg (by simp), h1, if_neg (by simp), h2]
          have htask : strLower (([p, "grammar", ""][1]?).getD "") =
              "grammar" := rfl
          rw [htask, if_pos (rfl : ("grammar" : String) = "grammar")]
          rfl
        refine ⟨?_, ?_, ?_, ?_, ?_, ?_⟩
        · rw [h3]
        · rw [h3]
        · rw [h4]
        · rw [h4]
        · rw [h3, h3]
        · rw [h4, h4]

/-- C7: with no credential in the secret store (absent or empty), the
program exits with code 1, prints guidance lines naming the expected
secret-store service name `OPENAI_API_KEY` and account name
`ChatGPT Integration`, writes no log entry, and never reaches any
operation or network call (the outcome is the same for every oracle and
clock). -/
theorem c7_missing_credential (p t : String) (rest : List String)
    (clock clock' : Nat → Timestamp) (create create' : ChatApi)
    (mApi mApi' : Except String ModelsPage) :
    (mainRun (p :: t :: rest) none clock create mApi).stdout =
      ["API key not found in Keychain. Please add it first.",
       "Use Keychain Access to add the key with:",
       " - Service name: OPENAI_API_KEY",
       " - Account name: ChatGPT Integration"] ∧
    (mainRun (p :: t :: rest) none clock create mApi).exitCode = 1 ∧
    (mainRun (p :: t :: rest) none clock create mApi).logged = [] ∧
    (mainRun (p :: t :: rest) (some "") clock create mApi).stdout =
      ["API key not found in Keychain. Please add it first.",
       "Use Keychain Access to add the key with:",
       " - Service name: OPENAI_API_KEY",
       " - Account name: ChatGPT Integration"] ∧
    (mainRun (p :: t :: rest) (some "") clock create mApi).exitCode = 1 ∧
    (mainRun (p :: t :: rest) (some "") clock create mApi).logged = [] ∧
    mainRun (p :: t :: rest) none clock create mApi =
      mainRun (p :: t :: rest) none clock' create' mApi' ∧
    mainRun (p :: t :: rest) (some "") clock create mApi =
      mainRun (p :: t :: rest) (some "") clock' create' mApi' ∧
    (∃ a b, " - Service name: OPENAI_API_KEY" =
        a ++ "OPENAI_API_KEY" ++ b) ∧
    (∃ a b, " - Account name: ChatGPT Integration" =
        a ++ "ChatGPT Integration" ++ b) := by
  have hlen : ¬ ((p :: t :: rest).length < 2) := by
    simp only [List.length_cons]; omega
  have hnone : ∀ (c : Nat → Timestamp) (cr : ChatApi)
      (m : Except String ModelsPage),
      mainRun (p :: t :: rest) none c cr m =
        ⟨["API key not found in Keychain. Please add it first.",
          "Use Keychain Access to add the key with:",
          " - Service name: OPENAI_API_KEY",
          " - Account name: ChatGPT Integration"], [], 1⟩ := by
    intro c cr m
    unfold mainRun
    rw [if_neg hlen]
    rfl
  have hempty : ∀ (c : Nat → Timestamp) (cr : ChatApi)
      (m : Except String ModelsPage),
      mainRun (p :: t :: rest) (some "") c cr m =
        ⟨["API key not found in Keychain. Please add it first.",
          "Use Keychain Access to add the key with:",
          " - Service name: OPENAI_API_KEY",
          " - Account name: ChatGPT Integration"], [], 1⟩ := by
    intro c cr m
    unfold mainRun
    rw [if_neg hlen]
    rfl
  refine ⟨?_, ?_, ?_, ?_, ?_, ?_, ?_, ?_,
    ⟨" - Service name: ", "", by simp⟩,
    ⟨" - Account name: ", "", by simp⟩⟩
  · rw [hnone]
  · rw [hnone]
  · rw [hnone]
  · rw [hempty]
  · rw [hempty]
  · rw [hempty]
  · rw [hnone, hnone]
  · rw [hempty, hempty]

/-- C10: when a task completes without error but its result is falsy —
the stripped completion is the empty string, or the model catalog is
empty so `list_models` returns an empty list — the program prints no
result line and still exits with code 0: for the grammar task the whole
stdout is exactly the operation's own (verbose-echo) output, and for the
`lm` task with an empty catalog the whole stdout is the single
`Available models:` header. -/
theorem c10_falsy_result_no_print (p t k : String)
    (clock : Nat → Timestamp) (create : ChatApi)
    (mApi : Except String ModelsPage) (comp : Completion) (choice : Choice)
    (cs : List Choice)
    (hk : k ≠ "") (ht : t ≠ "")
    (hapi : create MODEL_CHECK_GRAMMAR [⟨"user", grammarPrompt t⟩] =
        Except.ok comp)
    (hc : comp.choices = choice :: cs)
    (hblank : pyStrip choice.message.content = "") :
    mainRun [p, "grammar", t] (some k) clock create mApi =
      ⟨(check_grammar clock create t true).stdout,
       (check_grammar clock create t true).logged, 0⟩ ∧
    mainRun [p, "lm"] (some k) clock create (Except.ok ⟨[]⟩) =
      ⟨["Available models:"], [], 0⟩ := by
  have h1 : (!truthyStr (some k)) = false := by simp [truthyStr, hk]
  have h2 : chatGPTHelperInit (some k) = Except.ok k := by
    simp [chatGPTHelperInit, hk]
  constructor
  · unfold mainRun
    rw [if_neg (by simp), h1, if_neg (by simp), h2]
    have htask : strLower (([p, "grammar", t][1]?).getD "") =
        "grammar" := rfl
    rw [htask, if_pos (rfl : ("grammar" : String) = "grammar")]
    have htext : (!truthyStr ([p, "grammar", t][2]?)) = false := by
      simp [truthyStr, ht]
    rw [htext, if_neg (by simp)]
    have hres : (check_grammar clock create
        (([p, "grammar", t][2]?).getD "") true).result = Except.ok "" := by
      have : (([p, "grammar", t][2]?).getD "") = t := rfl
      rw [this]
      simp [check_grammar, hapi, hc, hblank]
    have harg : (([p, "grammar", t][2]?).getD "") = t := rfl
    rw [harg] at hres ⊢
    simp only [hres]
    simp
  · unfold mainRun
    rw [if_neg (by simp), h1, if_neg (by simp), h2]
    have htask : strLower (([p, "lm"][1]?).getD "") = "lm" := rfl
    rw [htask, if_neg (by decide : ¬ ("lm" : String) = "grammar"),
      if_neg (by decide : ¬ ("lm" : String) = "tldr"),
      if_pos (by decide : ("lm" : String) = "list_models" ∨
        ("lm" : String) = "lm")]
    rfl

/-- Every character `Nat.digitChar` produces for a value below ten is a
decimal digit. -/
lemma digitChar_isDigit : ∀ m < 10, (Nat.digitChar m).isDigit = true := by
  decide

/-- All characters produced by `Nat.toDigitsCore` at base ten are decimal
digits, provided the accumulator holds only digits. -/
lemma toDigitsCore_all_digits :
    ∀ (fuel n : Nat) (acc : List Char),
      (∀ c ∈ acc, c.isDigit = true) →
      ∀ c ∈ Nat.toDigitsCore 10 fuel n acc, c.isDigit = true := by
  intro fuel
  induction fuel with
  | zero =>
      intro n acc hacc c hc
      simp only [Nat.toDigitsCore] at hc
      exact hacc c hc
  | succ fuel ih =>
      intro n acc hacc c hc
      simp only [Nat.toDigitsCore] at hc
      have hd : (Nat.digitChar (n % 10)).isDigit = true :=
        digitChar_isDigit _ (Nat.mod_lt n (by norm_num))
      by_cases h : n / 10 = 0
      · rw [if_pos h] at hc
        rcases List.mem_cons.mp hc with rfl | hc
        · exact hd
        · exact hacc c hc
      · rw [if_neg h] at hc
        refine ih (n / 10) (Nat.digitChar (n % 10) :: acc) ?_ c hc
        intro x hx
        rcases List.mem_cons.mp hx with rfl | hx
        · exact hd
        · exact hacc x hx

/-- Exact character count of `Nat.toDigitsCore` at base ten: a number
with `k+1` decimal digits contributes exactly `k+1` characters, given
enough fuel. -/
lemma toDigitsCore_length_exact :
    ∀ (k fuel n : Nat) (acc : List Char), k ≤ fuel →
      10 ^ k ≤ n → n < 10 ^ (k + 1) →
      (Nat.toDigitsCore 10 (fuel + 1) n acc).length =
        acc.length + (k + 1) := by
  intro k
  induction k with
  | zero =>
      intro fuel n acc _ h1 h2
      norm_num at h1 h2
      simp only [Nat.toDigitsCore]
      rw [if_pos (by omega : n / 10 = 0)]
      simp
  | succ k ih =>
      intro fuel n acc hfuel h1 h2
      simp only [Nat.toDigitsCore]
      have e1 : 10 ^ (k + 1) = 10 ^ k * 10 := pow_succ 10 k
      have e2 : 10 ^ (k + 1 + 1) = 10 ^ (k + 1) * 10 := pow_succ 10 (k + 1)
      have hp : (1 : Nat) ≤ 10 ^ k := Nat.one_le_pow _ _ (by norm_num)
      have hne : ¬ (n / 10 = 0) := by omega
      rw [if_neg hne]
      obtain ⟨f, rfl⟩ : ∃ f, fuel = f + 1 := ⟨fuel - 1, by omega⟩
      have hd1 : 10 ^ k ≤ n / 10 := by omega
      have hd2 : n / 10 < 10 ^ (k + 1) := by omega
      have hlen := ih f (n / 10) (Nat.digitChar (n % 10) :: acc)
        (by omega) hd1 hd2
      rw [hlen]
      simp only [List.length_cons]
      omega

/-- The decimal representation of a year between 1000 and 9999 has
exactly four characters. -/
lemma repr_length_four (y : Nat) (h1 : 1000 ≤ y) (h2 : y < 10000) :
    (Nat.repr y).length = 4 := by
  have hlen := toDigitsCore_length_exact 3 y y [] (by omega)
    (by norm_num; omega) (by norm_num; omega)
  calc (Nat.repr y).length
      = (Nat.toDigitsCore 10 (y + 1) y []).length := rfl
    _ = ([] : List Char).length + (3 + 1) := hlen
    _ = 4 := rfl

/-- Every character of the decimal representation of a natural number is
a decimal digit. -/
lemma repr_all_digits (n : Nat) :
    ∀ c ∈ (Nat.repr n).data, c.isDigit = true := by
  intro c hc
  have hdata : (Nat.repr n).data = Nat.toDigitsCore 10 (n + 1) n [] := rfl
  rw [hdata] at hc
  exact toDigitsCore_all_digits (n + 1) n [] (by simp) c hc

/-- `pad2` produces exactly two characters for field values below a
hundred. -/
lemma pad2_length : ∀ n < 100, (pad2 n).length = 2 := by
  decide

/-- Every character of a `pad2` rendering is a decimal digit. -/
lemma pad2_all_digits (n : Nat) :
    ∀ c ∈ (pad2 n).data, c.isDigit = true := by
  intro c hc
  unfold pad2 at hc
  by_cases h : n < 10
  · rw [if_pos h, String.data_append] at hc
    rcases List.mem_append.mp hc with hc | hc
    · have hz : ("0" : String).data = ['0'] := rfl
      rw [hz] at hc
      rcases List.mem_singleton.mp hc with rfl
      decide
    · exact repr_all_digits n c hc
  · rw [if_neg h] at hc
    exact repr_all_digits n c hc

/-- A list of decimal digits contains no newline character. -/
lemma no_newline_of_all_digits (l : List Char)
    (h : ∀ c ∈ l, c.isDigit = true) : l.count '\n' = 0 := by
  rw [List.count_eq_zero]
  intro hm
  have hdig := h _ hm
  exact absurd hdig (by decide)

/-- A formatted timestamp contains no newline character. -/
lemma formatTimestamp_no_newline (t : Timestamp) :
    (formatTimestamp t).data.count '\n' = 0 := by
  have hy := no_newline_of_all_digits _ (repr_all_digits t.year)
  have hmo := no_newline_of_all_digits _ (pad2_all_digits t.month)
  have hda := no_newline_of_all_digits _ (pad2_all_digits t.day)
  have hho := no_newline_of_all_digits _ (pad2_all_digits t.hour)
  have hmi := no_newline_of_all_digits _ (pad2_all_digits t.minute)
  have hse := no_newline_of_all_digits _ (pad2_all_digits t.second)
  simp only [formatTimestamp, String.data_append, List.count_append]
  rw [hy, hmo, hda, hho, hmi, hse]
  decide

/-- C9 counterexample: a log write whose message contains a newline
appends a record spanning two lines (two newline characters in the
appended, newline-terminated text), refuting that every log write appends
exactly one line. -/
theorem c9_cex_multiline_message :
    (log_to_file ⟨2024, 1, 2, 3, 4, 5⟩ "" "a\nb" false).1.data.count '\n'
        = 2 ∧
    ¬ (log_to_file ⟨2024, 1, 2, 3, 4, 5⟩ "" "a\nb" false).1.data.count '\n'
        = 1 ∧
    (log_to_file ⟨2024, 1, 2, 3, 4, 5⟩ "" "a\nb" false).1 =
      "2024-01-02 03:04:05 - a\nb\n" := by
  refine ⟨by decide, by decide, by decide⟩

/-- C9 amended: every log write appends (never overwriting or deleting:
the old contents stay as an untouched prefix) exactly one record of the
form `timestamp - message` followed by a newline; the record is exactly
one line whenever the message itself contains no newline; and the
timestamp is formatted as `YYYY-MM-DD HH:MM:SS` — for in-range field
values it is nineteen characters long and splits into all-digit
components of widths 4, 2, 2, 2, 2, 2 joined by `-`, `-`, space, `:`,
`:`. -/
theorem c9_amended_append_one_record (ts : Timestamp)
    (file message : String) (verbose : Bool) :
    (log_to_file ts file message verbose).1 =
        file ++ (formatTimestamp ts ++ " - " ++ message ++ "\n") ∧
    (message.data.count '\n' = 0 →
      (formatTimestamp ts ++ " - " ++ message ++ "\n").data.count '\n'
        = 1) ∧
    (1000 ≤ ts.year → ts.year < 10000 → ts.month < 100 → ts.day < 100 →
      ts.hour < 100 → ts.minute < 100 → ts.second < 100 →
      (formatTimestamp ts).length = 19 ∧
      ∃ y mo d h mi s : String,
        formatTimestamp ts =
          y ++ "-" ++ mo ++ "-" ++ d ++ " " ++ h ++ ":" ++ mi ++ ":" ++ s ∧
        y.length = 4 ∧ mo.length = 2 ∧ d.length = 2 ∧ h.length = 2 ∧
        mi.length = 2 ∧ s.length = 2 ∧
        (∀ c ∈ y.data, c.isDigit = true) ∧
        (∀ c ∈ mo.data, c.isDigit = true) ∧
        (∀ c ∈ d.data, c.isDigit = true) ∧
        (∀ c ∈ h.data, c.isDigit = true) ∧
        (∀ c ∈ mi.data, c.isDigit = true) ∧
        (∀ c ∈ s.data, c.isDigit = true)) := by
  refine ⟨rfl, ?_, ?_⟩
  · intro hm
    simp only [String.data_append, List.count_append]
    rw [formatTimestamp_no_newline, hm]
    decide
  · intro hy1 hy2 hmo hda hho hmi hse
    constructor
    · simp only [formatTimestamp, String.length_append]
      rw [repr_length_four ts.year hy1 hy2, pad2_length ts.month hmo,
        pad2_length ts.day hda, pad2_length ts.hour hho,
        pad2_length ts.minute hmi, pad2_length ts.second hse]
      decide
    · refine ⟨Nat.repr ts.year, pad2 ts.month, pad2 ts.day, pad2 ts.hour,
        pad2 ts.minute, pad2 ts.second, rfl,
        repr_length_four ts.year hy1 hy2, pad2_length ts.month hmo,
        pad2_length ts.day hda, pad2_length ts.hour hho,
        pad2_length ts.minute hmi, pad2_length ts.second hse,
        repr_all_digits ts.year, pad2_all_digits ts.month,
        pad2_all_digits ts.day, pad2_all_digits ts.hour,
        pad2_all_digits ts.minute, pad2_all_digits ts.second⟩

/-- Witness for the amended C9 at a concrete timestamp, file and
message. -/
theorem c9_amended_append_one_record_witness :
    (log_to_file ⟨2024, 1, 2, 3, 4, 5⟩ "prev\n" "hello" false).1 =
        "prev\n" ++ (formatTimestamp ⟨2024, 1, 2, 3, 4, 5⟩ ++ " - " ++
          "hello" ++ "\n") ∧
    (formatTimestamp ⟨2024, 1, 2, 3, 4, 5⟩ ++ " - " ++ "hello" ++
        "\n").data.count '\n' = 1 ∧
    (formatTimestamp ⟨2024, 1, 2, 3, 4, 5⟩).length = 19 := by
  have h := c9_amended_append_one_record ⟨2024, 1, 2, 3, 4, 5⟩ "prev\n"
    "hello" false
  exact ⟨h.1, h.2.1 (by decide),
    (h.2.2 (by decide) (by decide) (by decide) (by decide) (by decide)
      (by decide) (by decide)).1⟩

/-- Witness for C10 at a concrete blank-output oracle and empty
catalog. -/
theorem c10_falsy_result_no_print_witness :
    mainRun ["prog", "grammar", "hi"] (some "k") testClock blankApi
        (Except.error "unused") =
      ⟨(check_grammar testClock blankApi "hi" true).stdout,
       (check_grammar testClock blankApi "hi" true).logged, 0⟩ ∧
    mainRun ["prog", "lm"] (some "k") testClock blankApi
        (Except.ok ⟨[]⟩) =
      ⟨["Available models:"], [], 0⟩ :=
  c10_falsy_result_no_print "prog" "hi" "k" testClock blankApi
    (Except.error "unused") ⟨[⟨⟨"  "⟩⟩]⟩ ⟨⟨"  "⟩⟩ []
    (by decide) (by decide) rfl rfl (by decide)
